import Mathlib

/-!
Verification of the goal-progress and highlight-ranking engines of the
verve-backend repository.

The Python source is shallowly embedded:

* `verve_backend/core/date_utils.py` (`get_week_date_range`) over a
  proleptic-Gregorian day count (`Date.toDays`, rata die: day 1 is
  0001-01-01, a Monday, so the Python `weekday()` of a day number `n`
  is `(n - 1) % 7`).
* `verve_backend/goal.py` (`_build_activity_stmt`, `update_goal_state`,
  `_validate_temporal_setup`, `_validate_type_aggregation_combination`).
  The SQL statement is embedded as the predicate an activity row must
  satisfy to be returned; Python truthiness of optional filters
  (`if contraints.type_id:`, `if possible_activity_ids:`, ...) is kept,
  since an empty list or the integer 0 disables a filter exactly as in
  the source.  SQL three-valued logic is kept: `distance != 0` drops
  NULL distances, and `col != None` is rendered as IS NOT NULL by
  sqlalchemy.  A raised exception (assert, NotImplementedError) is
  `none`.
* `verve_backend/crud.py` (`create_goal`) with persistence as an
  explicit list of stored goals; a raised `InvalidCombinationError` is
  `Except.error`.
* `verve_backend/highlights/crud.py` (`update_top_n_highlights`) over an
  explicit list of stored highlight rows.  The Python stable
  `list.sort(key=lambda h: (h.value, h.activity_id), reverse=True)` is
  `List.insertionSort` with the total preorder `hlGe` (descending
  lexicographic on value then activity id), which Mathlib implements as
  a stable sort.
* `verve_backend/highlights/registry.py` (`Registry.run_all`), where a
  calculator that may raise is a function into `Except Unit`.

Numbers that are Python floats in the source are modelled as `ℚ`;
timestamps are a civil date plus seconds-of-day, ordered
lexicographically via the day count.
-/

/-- A civil (proleptic Gregorian) calendar date. -/
structure Date where
  y : Nat
  m : Nat
  d : Nat
deriving DecidableEq, Repr

/-- Gregorian leap-year test. -/
def isLeapYear (y : Nat) : Bool :=
  (y % 4 == 0 && y % 100 != 0) || y % 400 == 0

/-- Days in the months strictly before month `m` of a year with leap flag
`leap`. -/
def cumMonthDays (m : Nat) (leap : Bool) : Nat :=
  (match m with
    | 1 => 0 | 2 => 31 | 3 => 59 | 4 => 90 | 5 => 120 | 6 => 151
    | 7 => 181 | 8 => 212 | 9 => 243 | 10 => 273 | 11 => 304 | _ => 334)
  + (if 2 < m && leap then 1 else 0)

/-- Rata-die day number of a date: 0001-01-01 maps to 1 (a Monday). -/
def Date.toDays (dt : Date) : Nat :=
  365 * (dt.y - 1) + ((dt.y - 1) / 4 - (dt.y - 1) / 100) + (dt.y - 1) / 400
    + cumMonthDays dt.m (isLeapYear dt.y) + dt.d

/-- Python `datetime.weekday()`: Monday is 0. -/
def pyWeekday (n : Nat) : Nat := (n - 1) % 7

/-- `get_week_date_range` from `core/date_utils.py`, returning day numbers
for the half-open range: Monday of the ISO week containing January 4th,
shifted by `(week - 1)` weeks, and that day plus seven. -/
def get_week_date_range (year : Nat) (week : Nat) : Nat × Nat :=
  let jan4 := Date.toDays ⟨year, 1, 4⟩
  let week_1_monday := jan4 - pyWeekday jan4
  let start_date := week_1_monday + 7 * (week - 1)
  (start_date, start_date + 7)

/-- An instant: civil date plus seconds of day (Python `datetime`). -/
structure Timestamp where
  date : Date
  sec : Nat
deriving DecidableEq, Repr

/-- Day number of a timestamp. -/
def Timestamp.days (t : Timestamp) : Nat := t.date.toDays

/-- Strict order on instants (day number, then second of day). -/
def tsLt (a b : Timestamp) : Bool :=
  a.days < b.days || (a.days == b.days && a.sec < b.sec)

inductive GoalType
  | activity
  | manual
  | location
deriving DecidableEq, Repr

inductive GoalAggregation
  | count
  | total_distance
  | avg_distance
  | max_distance
  | duration
deriving DecidableEq, Repr

inductive TemporalType
  | yearly
  | monthly
  | weekly
deriving DecidableEq, Repr

inductive ErrorType
  | validation
  | domain
deriving DecidableEq, Repr

/-- `GoalContraints` (spelling as in `goal.py`). Ids are names (`Nat`). -/
structure GoalContraints where
  type_id : Option Nat := none
  sub_type_id : Option Nat := none
  equipment_ids : Option (List Nat) := none
  location_id : Option Nat := none
deriving DecidableEq, Repr

/-- An `Activity` row: the fields read by the goal engine, with the linked
equipment ids of the `activity_equipment` table inlined. -/
structure Activity where
  id : Nat
  user_id : Nat
  start : Timestamp
  created_at : Timestamp
  duration : ℚ
  distance : Option ℚ
  type_id : Nat
  sub_type_id : Option Nat := none
  equipment : List Nat := []
deriving DecidableEq, Repr

/-- A `Goal` row (`GoalCreate` carries the same fields). -/
structure Goal where
  current : ℚ := 0
  target : ℚ
  current_updated : Option Timestamp := none
  temporal_type : TemporalType := .yearly
  year : Nat
  month : Option Nat := none
  week : Option Nat := none
  type : GoalType
  aggregation : GoalAggregation
  constraints : GoalContraints := {}
deriving DecidableEq, Repr

/-- Python truthiness of an optional integer column (`0` and `None` are
falsy). -/
def truthyNat : Option Nat → Bool
  | none => false
  | some n => n != 0

/-- Python truthiness of an optional list (`None` and `[]` are falsy). -/
def truthyList {α : Type} : Option (List α) → Bool
  | none => false
  | some l => !l.isEmpty

/-- The row predicate of the SELECT built by `_build_activity_stmt` in
`goal.py`: an activity is returned iff every WHERE clause the function
attaches holds of it.  Clause by clause this follows the source,
including Python truthiness of the optional filters, and SQL null
semantics for the distance comparisons. -/
def build_activity_stmt_matches (user_id : Nat) (contraints : GoalContraints)
    (year : Nat) (month : Option Nat) (week : Option Nat)
    (last_updated : Option Timestamp) (possible_activity_ids : Option (List Nat))
    (filter_distance : Bool) (a : Activity) : Bool :=
  a.user_id == user_id
  && (if truthyNat contraints.type_id
      then a.type_id == contraints.type_id.getD 0 else true)
  && (if truthyNat contraints.sub_type_id
      then a.sub_type_id == some (contraints.sub_type_id.getD 0) else true)
  && (match month, week with
      | some m, _ => a.start.date.y == year && a.start.date.m == m
      | none, some w =>
          let r := get_week_date_range year w
          r.1 ≤ a.start.days && a.start.days < r.2
      | none, none => a.start.date.y == year)
  && (match contraints.equipment_ids with
      | some eids =>
          if eids.isEmpty then true
          else (a.equipment.filter (fun e => eids.contains e)).length == eids.length
      | none => true)
  && (match last_updated with
      | some t => tsLt t a.created_at
      | none => true)
  && (if truthyList possible_activity_ids
      then (possible_activity_ids.getD []).contains a.id
            && (match a.distance with
                | some dist => dist != 0
                | none => false)
      else true)
  && (if filter_distance then a.distance.isSome else true)

/-- The list of distance-valued aggregations, as in `update_goal_state`. -/
def distance_aggregations : List GoalAggregation :=
  [.total_distance, .avg_distance, .max_distance]

/-- The statement a LOCATION goal recompute runs: the goal's filters with
the cursor and the geo candidate-id list (`filter_distance=False`). -/
def location_stmt_filter (acts : List Activity) (geo_candidates : List Nat)
    (user_id : Nat) (goal : Goal) : List Activity :=
  acts.filter
    (build_activity_stmt_matches user_id goal.constraints goal.year goal.month
      goal.week goal.current_updated (some geo_candidates) false)

/-- The statement an ACTIVITY goal recompute runs: the goal's filters with
the cursor (dropped for AVG_DISTANCE) and the non-null-distance filter
for distance aggregations. -/
def activity_stmt_filter (acts : List Activity) (user_id : Nat) (goal : Goal) :
    List Activity :=
  acts.filter
    (build_activity_stmt_matches user_id goal.constraints goal.year goal.month
      goal.week
      (if goal.aggregation != .avg_distance then goal.current_updated else none)
      none (distance_aggregations.contains goal.aggregation))

/-- The LOCATION branch of `update_goal_state`: assert the location
constraint, filter with the geo candidate ids and the cursor, count. -/
def update_goal_location (acts : List Activity) (geo_candidates : List Nat)
    (now : Timestamp) (user_id : Nat) (goal : Goal) : Option Goal :=
  match goal.constraints.location_id with
  | none => none
  | some _ =>
    let activities := location_stmt_filter acts geo_candidates user_id goal
    if activities.length == 0 then some goal
    else if goal.aggregation == .count then
      some { goal with
              current := goal.current + activities.length,
              current_updated := some now }
    else none

/-- The ACTIVITY (non-MANUAL, non-LOCATION) branch of `update_goal_state`:
cursor-filtered candidates (cursor dropped for AVG_DISTANCE), then the
aggregation fold of the source, with the distance assert. -/
def update_goal_activity (acts : List Activity) (now : Timestamp)
    (user_id : Nat) (goal : Goal) : Option Goal :=
  let activities := activity_stmt_filter acts user_id goal
  if activities.length == 0 then some goal
  else
    match goal.aggregation with
    | .count =>
        some { goal with
                current := goal.current + activities.length,
                current_updated := some now }
    | .duration =>
        some { goal with
                current := goal.current + (activities.map (·.duration)).sum,
                current_updated := some now }
    | agg =>
        let distances := activities.filterMap (·.distance)
        if distances.length == activities.length then
          match agg with
          | .total_distance =>
              some { goal with
                      current := goal.current + distances.sum,
                      current_updated := some now }
          | .avg_distance =>
              some { goal with
                      current := distances.sum / activities.length,
                      current_updated := some now }
          | _ =>
              match distances.max? with
              | some m =>
                  some { goal with
                          current := max goal.current m,
                          current_updated := some now }
              | none => none
        else none

/-- `update_goal_state` from `goal.py`, as a pure function of the stored
activities, the candidate-activity ids the geo collaborator returns for
the goal location, and the current wall-clock instant (`datetime.now()`).
`none` is a raised exception (failed assert, `NotImplementedError`); the
two non-trivial branches are the named functions above. -/
def update_goal_state (acts : List Activity) (geo_candidates : List Nat)
    (now : Timestamp) (user_id : Nat) (goal : Goal) : Option Goal :=
  match goal.type with
  | .manual => some goal
  | .location => update_goal_location acts geo_candidates now user_id goal
  | .activity => update_goal_activity acts now user_id goal

/-- `_validate_temporal_setup` from `goal.py` (the error messages of the
source, paired with their classification). -/
def validate_temporal_setup (goal : Goal) : Option (String × ErrorType) :=
  match goal.temporal_type with
  | .yearly =>
    if goal.month.isSome then
      some ("Invalid combination: Yearly goals should not have month set",
            .validation)
    else if goal.week.isSome then
      some ("Invalid combination: Yearly goals should not have week set",
            .validation)
    else none
  | .monthly =>
    if goal.month.isNone then
      some ("Invalid combination: Monthly goals must have month set",
            .validation)
    else if goal.week.isSome then
      some ("Invalid combination: Monthly goals should not have week set",
            .validation)
    else none
  | .weekly =>
    match goal.week with
    | none =>
      some ("Invalid combination: Weekly goals must have week set",
            .validation)
    | some w =>
      if goal.month.isSome then
        some ("Invalid combination: Weekly goals should not have month set",
              .validation)
      else if w < 1 || 53 < w then
        some ("Invalid combination: Week must be between 1 and 53",
              .validation)
      else none

/-- `_validate_type_aggregation_combination` from `goal.py`. -/
def validate_type_aggregation_combination (goal : Goal) :
    Option (String × ErrorType) :=
  match goal.type with
  | .location =>
    if goal.aggregation != .count then
      some ("Invalid combination: Location goal only support count aggregation",
            .validation)
    else none
  | .manual =>
    if goal.aggregation != .count && goal.aggregation != .duration then
      some ("Invalid combination: Manual goal only support count and duration aggregation",
            .validation)
    else none
  | .activity => none

/-- `create_goal` from `crud.py`: validates only the type/aggregation
combination (raising `InvalidCombinationError`, here `Except.error`),
then persists the goal by appending it to the stored-goal list and
returns it.  It never invokes `_validate_temporal_setup` or
`validate_goal_creation`. -/
def create_goal (stored : List Goal) (goal : Goal) :
    Except String (List Goal × Goal) :=
  match goal.type with
  | .location =>
    if goal.aggregation != .count then
      .error "Location goal only support count aggregation"
    else .ok (stored ++ [goal], goal)
  | .manual =>
    if goal.aggregation != .count && goal.aggregation != .duration then
      .error "Manual goal only support count and duration aggregation"
    else .ok (stored ++ [goal], goal)
  | .activity => .ok (stored ++ [goal], goal)

inductive HighlightTimeScope
  | yearly
  | lifetime
deriving DecidableEq, Repr

/-- An `ActivityHighlight` row.  The metric is an open identifier
(`HighlightMetric` is a string enum in the source), modelled as `Nat`. -/
structure Highlight where
  user_id : Nat
  activity_id : Nat
  type_id : Nat
  metric : Nat
  scope : HighlightTimeScope
  year : Option Nat
  value : ℚ
  track_id : Option Nat
  rank : Int
deriving DecidableEq, Repr

/-- The leaderboard key of a row: (user, metric, scope, year-or-null,
activity type). -/
def hlKey (h : Highlight) : Nat × Nat × HighlightTimeScope × Option Nat × Nat :=
  (h.user_id, h.metric, h.scope, h.year, h.type_id)

/-- The descending sort order of `update_top_n_highlights`:
`a` precedes `b` when `(a.value, a.activity_id) ≥ (b.value, b.activity_id)`
lexicographically.  A total preorder, so Mathlib's stable
`insertionSort` with it agrees with Python's stable
`sort(key=..., reverse=True)`. -/
def hlGe (a b : Highlight) : Prop :=
  b.value < a.value ∨ (b.value = a.value ∧ b.activity_id ≤ a.activity_id)

instance : DecidableRel hlGe := fun _a _b =>
  inferInstanceAs (Decidable (_ ∨ _ ∧ _))

instance : IsTotal Highlight hlGe where
  total a b := by
    unfold hlGe
    rcases lt_trichotomy a.value b.value with h | h | h
    · exact Or.inr (Or.inl h)
    · rcases Nat.le_total b.activity_id a.activity_id with h2 | h2
      · exact Or.inl (Or.inr ⟨h.symm, h2⟩)
      · exact Or.inr (Or.inr ⟨h, h2⟩)
    · exact Or.inl (Or.inl h)

instance : IsTrans Highlight hlGe where
  trans a b c hab hbc := by
    unfold hlGe at *
    rcases hab with h1 | ⟨h1, h1'⟩ <;> rcases hbc with h2 | ⟨h2, h2'⟩
    · exact Or.inl (h2.trans h1)
    · exact Or.inl (lt_of_le_of_lt (le_of_eq h2) h1)
    · exact Or.inl (lt_of_lt_of_le h2 (le_of_eq h1))
    · exact Or.inr ⟨h2.trans h1, h2'.trans h1'⟩

/-- Rank re-assignment of step 5 of `update_top_n_highlights`: the
`enumerate` loop inserts fresh rows with `rank = i + 1`, keeping every
other field. -/
def assignRanks (i : Int) : List Highlight → List Highlight
  | [] => []
  | h :: t => { h with rank := i } :: assignRanks (i + 1) t

/-- The stored rows of one leaderboard key, in store order. -/
def keyRows (state : List Highlight)
    (key : Nat × Nat × HighlightTimeScope × Option Nat × Nat) :
    List Highlight :=
  state.filter (fun h => hlKey h == key)

/-- The `year` column of a scope: the activity's start year for YEARLY,
NULL for LIFETIME. -/
def scope_year (activity : Activity) : HighlightTimeScope → Option Nat
  | .yearly => some activity.start.date.y
  | .lifetime => none

/-- The leaderboard key one scope pass works on. -/
def scope_key (user_id : Nat) (activity : Activity) (metric : Nat)
    (scope : HighlightTimeScope) :
    Nat × Nat × HighlightTimeScope × Option Nat × Nat :=
  (user_id, metric, scope, scope_year activity scope, activity.type_id)

/-- The fresh candidate row of one scope pass (the source constructs it
without a `track_id`, with placeholder rank -1). -/
def scope_candidate (user_id : Nat) (activity : Activity) (metric : Nat)
    (value : ℚ) (scope : HighlightTimeScope) : Highlight :=
  { user_id := user_id, activity_id := activity.id,
    type_id := activity.type_id, metric := metric, scope := scope,
    year := scope_year activity scope, value := value, track_id := none,
    rank := -1 }

/-- Steps 1-4 of one scope pass: current rows plus the candidate, sorted
descending by (value, activity id) with Python's stable sort, truncated
to the first `n`. -/
def scope_tops (state : List Highlight) (user_id : Nat) (activity : Activity)
    (metric : Nat) (value : ℚ) (n : Nat) (scope : HighlightTimeScope) :
    List Highlight :=
  ((keyRows state (scope_key user_id activity metric scope) ++
      [scope_candidate user_id activity metric value scope]).insertionSort
    hlGe).take n

/-- One iteration of the scope loop of `update_top_n_highlights`
(`highlights/crud.py`): load the rows of the exact key, add the fresh
candidate (whose `track_id` the source does not set), sort descending by
(value, activity id), truncate to `n`; if the activity survived, replace
the key's rows wholesale with the truncated list ranked `1..len`,
otherwise leave the store untouched. -/
def update_highlights_scope (state : List Highlight) (user_id : Nat)
    (activity : Activity) (metric : Nat) (value : ℚ) (n : Nat)
    (scope : HighlightTimeScope) : List Highlight :=
  if (scope_tops state user_id activity metric value n scope).any
      (fun c => c.activity_id == activity.id) then
    state.filter
        (fun h => !(hlKey h == scope_key user_id activity metric scope)) ++
      assignRanks 1 (scope_tops state user_id activity metric value n scope)
  else
    state

/-- `update_top_n_highlights`: the scope loop runs YEARLY (keyed by the
start year of the activity) and then LIFETIME on the stored rows. -/
def update_top_n_highlights (state : List Highlight) (user_id : Nat)
    (activity : Activity) (metric : Nat) (value : ℚ) (n : Nat := 3) :
    List Highlight :=
  update_highlights_scope
    (update_highlights_scope state user_id activity metric value n .yearly)
    user_id activity metric value n .lifetime

/-- `CalculatorResult` from `highlights/registry.py`. -/
structure CalculatorResult where
  value : ℚ
  track_id : Option Nat := none
deriving DecidableEq, Repr

/-- A registered calculator: it may raise (`Except.error`) or return
`none` ("no result") or a result. -/
def CalculatorFunc : Type :=
  Nat → Nat → Except Unit (Option CalculatorResult)

/-- The try/except body of `Registry.run_all`: a raised exception is
caught and recorded as `None`, an ordinary return is passed through. -/
def catch_calculator (r : Except Unit (Option CalculatorResult)) :
    Option CalculatorResult :=
  match r with
  | .ok v => v
  | .error _ => none

/-- `Registry.run_all`: iterate the registered calculators in order,
recording each result under its metric; a raised exception is caught and
recorded as `None` for that metric only. -/
def run_all (calculators : List (Nat × CalculatorFunc))
    (activity_id : Nat) (user_id : Nat) :
    List (Nat × Option CalculatorResult) :=
  calculators.foldl
    (fun results mc =>
      results ++ [(mc.1, catch_calculator (mc.2 activity_id user_id))])
    []

/-! ### Concrete fixtures used by several claims -/

/-- Noon of a given civil date. -/
def mkTs (y m d : Nat) : Timestamp := ⟨⟨y, m, d⟩, 43200⟩

/-- An activity of user 1, type 1, created when it starts. -/
def mkAct (i y m d : Nat) (dist : ℚ) : Activity :=
  { id := i, user_id := 1, start := mkTs y m d, created_at := mkTs y m d,
    duration := 1800, distance := some dist, type_id := 1 }

/-- A weekly TOTAL_DISTANCE goal for week 1 of 2025. -/
def weeklyGoal2025 : Goal :=
  { target := 100, year := 2025, week := some 1, temporal_type := .weekly,
    type := .activity, aggregation := .total_distance }

/-- The three boundary activities of the ISO-week test: Dec 30/31, 2024 and
Jan 1, 2025, with distances 10, 15, 20. -/
def weekBoundaryActs : List Activity :=
  [mkAct 1 2024 12 30 10, mkAct 2 2024 12 31 15, mkAct 3 2025 1 1 20]

/-! ### C6: weekly temporal bucket -/

/-- C6: for every year and week in [1,53] the weekly bucket is the half-open
7-day day range starting at the Monday of the ISO week containing January
4th plus `(week-1)*7` days (the start is a Monday and week 1 contains
January 4th); week 1 of 2025 runs from Dec 30, 2024 to Jan 6, 2025
exclusive, hence contains Dec 30-31, 2024 and Jan 1, 2025, and the weekly
TOTAL_DISTANCE goal over the three boundary activities of distances
10, 15, 20 ends at `current = 45`. -/
theorem iso_week_bucket :
    (∀ year week : Nat, 1 ≤ week → week ≤ 53 →
      (get_week_date_range year week).1 =
        Date.toDays ⟨year, 1, 4⟩ - pyWeekday (Date.toDays ⟨year, 1, 4⟩)
          + 7 * (week - 1) ∧
      (get_week_date_range year week).2 = (get_week_date_range year week).1 + 7 ∧
      pyWeekday (get_week_date_range year week).1 = 0 ∧
      (week = 1 →
        (get_week_date_range year week).1 ≤ Date.toDays ⟨year, 1, 4⟩ ∧
        Date.toDays ⟨year, 1, 4⟩ < (get_week_date_range year week).2)) ∧
    get_week_date_range 2025 1 =
      (Date.toDays ⟨2024, 12, 30⟩, Date.toDays ⟨2025, 1, 6⟩) ∧
    ([Date.toDays ⟨2024, 12, 30⟩, Date.toDays ⟨2024, 12, 31⟩,
      Date.toDays ⟨2025, 1, 1⟩].all fun d =>
        (get_week_date_range 2025 1).1 ≤ d && d < (get_week_date_range 2025 1).2)
      = true ∧
    update_goal_state weekBoundaryActs [] (mkTs 2025 2 1) 1 weeklyGoal2025 =
      some { weeklyGoal2025 with
              current := 45, current_updated := some (mkTs 2025 2 1) } := by
  have hconcrete :
      update_goal_state weekBoundaryActs [] (mkTs 2025 2 1) 1 weeklyGoal2025 =
        some { weeklyGoal2025 with
                current := 45, current_updated := some (mkTs 2025 2 1) } := by
    have hf : activity_stmt_filter weekBoundaryActs 1 weeklyGoal2025 =
        weekBoundaryActs := by decide
    have hd : List.filterMap (fun x => x.distance) weekBoundaryActs = [10, 15, 20] := by
      decide
    simp only [update_goal_state, update_goal_activity, hf, hd]
    norm_num [weeklyGoal2025, weekBoundaryActs, Goal.mk.injEq]
  refine ⟨?_, by decide, by decide, hconcrete⟩
  intro year week h1 h53
  have hj : 4 ≤ Date.toDays ⟨year, 1, 4⟩ := by
    unfold Date.toDays cumMonthDays
    simp only
    omega
  refine ⟨rfl, rfl, ?_, ?_⟩
  · unfold get_week_date_range pyWeekday
    simp only
    omega
  · intro hw
    subst hw
    unfold get_week_date_range pyWeekday
    simp only
    omega

/-- Witness for C6 at year 2025, week 1. -/
theorem iso_week_bucket_witness :
    (get_week_date_range 2025 1).2 = (get_week_date_range 2025 1).1 + 7 ∧
    pyWeekday (get_week_date_range 2025 1).1 = 0 :=
  ⟨(iso_week_bucket.1 2025 1 (by decide) (by decide)).2.1,
   (iso_week_bucket.1 2025 1 (by decide) (by decide)).2.2.1⟩

/-! ### C8: goal creation vs. temporal validation -/

/-- A structurally invalid goal definition: YEARLY with `month` set. -/
def yearlyGoalWithMonth : Goal :=
  { target := 10, year := 2025, month := some 5, temporal_type := .yearly,
    type := .activity, aggregation := .count }

/-- C8 (failing behaviour): `create_goal` never invokes the temporal
validator.  Every ACTIVITY goal is persisted and returned regardless of
its temporal fields; in particular the YEARLY-with-month goal that
`_validate_temporal_setup` rejects with a validation error is appended
to the store and returned without any error. -/
theorem create_goal_skips_temporal_validation :
    (∀ (stored : List Goal) (g : Goal), g.type = .activity →
      create_goal stored g = .ok (stored ++ [g], g)) ∧
    validate_temporal_setup yearlyGoalWithMonth =
      some ("Invalid combination: Yearly goals should not have month set",
            .validation) ∧
    create_goal [] yearlyGoalWithMonth =
      .ok ([yearlyGoalWithMonth], yearlyGoalWithMonth) := by
  refine ⟨?_, rfl, rfl⟩
  intro stored g h
  simp only [create_goal, h]

/-- Witness for C8 at the concrete invalid goal. -/
theorem create_goal_skips_temporal_validation_witness :
    create_goal [] yearlyGoalWithMonth =
      .ok ([] ++ [yearlyGoalWithMonth], yearlyGoalWithMonth) :=
  create_goal_skips_temporal_validation.1 [] yearlyGoalWithMonth rfl

/-! ### C9: location goals with an empty geo candidate set -/

/-- A LOCATION COUNT goal for 2025 with a location constraint. -/
def locationGoal : Goal :=
  { target := 5, year := 2025, type := .location, aggregation := .count,
    constraints := { location_id := some 1 } }

/-- A 2025 activity of user 1 with NULL distance. -/
def nullDistanceAct : Activity :=
  { id := 7, user_id := 1, start := mkTs 2025 6 1, created_at := mkTs 2025 6 1,
    duration := 3600, distance := none, type_id := 1 }

/-- C9 (failing behaviour): passing an empty candidate-id list is the same
as passing no candidate filter at all — Python truthiness of
`if possible_activity_ids:` disables both the id filter and the
`distance != 0` filter — so when the geo collaborator returns the empty
set for a LOCATION goal, recompute counts every temporally matching
activity of the user, including one with NULL distance that is not in
the candidate set: the goal is not returned unchanged but gets
`current = 1`. -/
theorem location_goal_empty_candidates :
    (∀ (user_id : Nat) (c : GoalContraints) (year : Nat)
        (month week : Option Nat) (lu : Option Timestamp) (a : Activity),
      build_activity_stmt_matches user_id c year month week lu (some []) false a =
      build_activity_stmt_matches user_id c year month week lu none false a) ∧
    update_goal_state [nullDistanceAct] [] (mkTs 2025 7 1) 1 locationGoal =
      some { locationGoal with
              current := 1, current_updated := some (mkTs 2025 7 1) } := by
  constructor
  · intro user_id c year month week lu a
    rfl
  · have hf : location_stmt_filter [nullDistanceAct] [] 1 locationGoal =
        [nullDistanceAct] := by decide
    simp only [update_goal_state, update_goal_location, hf]
    norm_num [locationGoal, nullDistanceAct, Goal.mk.injEq]

/-! ### C2: AVG_DISTANCE ignores the cursor and rescans -/

/-- The full matching set of an ACTIVITY AVG_DISTANCE goal: the temporal
and constraint filters with NO cursor restriction (`last_updated=None`)
and the non-null-distance filter, exactly the statement
`update_goal_state` builds for that aggregation. -/
def avg_matching_set (acts : List Activity) (user_id : Nat) (g : Goal) :
    List Activity :=
  acts.filter
    (build_activity_stmt_matches user_id g.constraints g.year g.month g.week
      none none true)

/-- An activity that passes a distance-filtered statement has a non-null
distance. -/
theorem matches_isSome_distance {user_id : Nat} {c : GoalContraints}
    {year : Nat} {month week : Option Nat} {lu : Option Timestamp}
    {pids : Option (List Nat)} {a : Activity}
    (h : build_activity_stmt_matches user_id c year month week lu pids true a
          = true) :
    a.distance.isSome = true := by
  unfold build_activity_stmt_matches at h
  simp only [Bool.and_eq_true, if_true] at h
  exact h.2

/-- `filterMap` over the distance field drops nothing when every element
has a non-null distance. -/
theorem length_filterMap_distance {l : List Activity}
    (h : ∀ a ∈ l, a.distance.isSome = true) :
    (l.filterMap (·.distance)).length = l.length := by
  induction l with
  | nil => rfl
  | cons a t ih =>
    have ha := h a (List.mem_cons_self a t)
    cases hd : a.distance with
    | none => rw [hd] at ha; simp at ha
    | some d =>
      simp only [List.filterMap_cons, hd, List.length_cons]
      rw [ih (fun b hb => h b (List.mem_cons_of_mem a hb))]

/-- An AVG_DISTANCE goal with activities of distance 10 and 20 already
folded: `current = 15` and the cursor set to Jan 10, 2025. -/
def avgGoalFolded : Goal :=
  { current := 15, target := 100, year := 2025,
    current_updated := some (mkTs 2025 1 10), type := .activity,
    aggregation := .avg_distance }

/-- The two folded activities plus a third of distance 60 created after
the cursor. -/
def avgActsFolded : List Activity :=
  [mkAct 1 2025 1 2 10, mkAct 2 2025 1 3 20,
   { mkAct 3 2025 1 4 60 with created_at := mkTs 2025 1 20 }]

/-- Dispatch on MANUAL goals. -/
theorem update_goal_state_manual (acts : List Activity)
    (geo_candidates : List Nat) (now : Timestamp) (user_id : Nat) {g : Goal}
    (h : g.type = .manual) :
    update_goal_state acts geo_candidates now user_id g = some g := by
  unfold update_goal_state
  rw [h]

/-- Dispatch on LOCATION goals. -/
theorem update_goal_state_loc (acts : List Activity)
    (geo_candidates : List Nat) (now : Timestamp) (user_id : Nat) {g : Goal}
    (h : g.type = .location) :
    update_goal_state acts geo_candidates now user_id g =
      update_goal_location acts geo_candidates now user_id g := by
  unfold update_goal_state
  rw [h]

/-- Dispatch on ACTIVITY goals. -/
theorem update_goal_state_act (acts : List Activity)
    (geo_candidates : List Nat) (now : Timestamp) (user_id : Nat) {g : Goal}
    (h : g.type = .activity) :
    update_goal_state acts geo_candidates now user_id g =
      update_goal_activity acts now user_id g := by
  unfold update_goal_state
  rw [h]

/-- For an AVG_DISTANCE goal the recompute statement is the cursor-free
matching set. -/
theorem activity_filter_avg (acts : List Activity) (user_id : Nat) {g : Goal}
    (hagg : g.aggregation = .avg_distance) :
    activity_stmt_filter acts user_id g = avg_matching_set acts user_id g := by
  unfold activity_stmt_filter avg_matching_set
  rw [hagg]
  rfl

/-- Full characterization of recompute on an ACTIVITY AVG_DISTANCE goal
with a nonempty matching set: `current` becomes the average over the
entire cursor-free matching set and the cursor is set to `now`. -/
theorem update_avg_characterization (acts : List Activity) (geo : List Nat)
    (now : Timestamp) (user_id : Nat) {g : Goal}
    (ht : g.type = .activity) (hagg : g.aggregation = .avg_distance)
    (hne : avg_matching_set acts user_id g ≠ []) :
    update_goal_state acts geo now user_id g =
      some { g with
              current := ((avg_matching_set acts user_id g).filterMap
                  (·.distance)).sum / (avg_matching_set acts user_id g).length,
              current_updated := some now } := by
  rw [update_goal_state_act acts geo now user_id ht]
  rw [update_goal_activity]
  simp only
  rw [activity_filter_avg acts user_id hagg, hagg]
  have hlen0 : ((avg_matching_set acts user_id g).length == 0) = false := by
    simp only [beq_eq_false_iff_ne, ne_eq]
    intro h0
    exact hne (List.length_eq_zero.mp h0)
  rw [hlen0]
  simp only [Bool.false_eq_true, if_false]
  have hall : ∀ a ∈ avg_matching_set acts user_id g, a.distance.isSome = true := by
    intro a ha
    exact matches_isSome_distance (List.of_mem_filter ha)
  have hlen := length_filterMap_distance hall
  rw [hlen]
  simp only [beq_self_eq_true, if_true]

/-- C2: for every non-MANUAL goal with AVG_DISTANCE aggregation (a valid
type/aggregation combination, i.e. an ACTIVITY goal), recompute ignores
the `current_updated` cursor: whenever the full matching set is
nonempty, the result is exactly `current = sum of distances / count`
over that whole set, whatever the cursor holds; and the concrete
10/20-folded, add-60 example yields `current = 30`. -/
theorem avg_distance_rescans :
    (∀ (acts : List Activity) (geo : List Nat) (now : Timestamp)
        (user_id : Nat) (g : Goal),
      g.aggregation = .avg_distance →
      g.type ≠ .manual →
      validate_type_aggregation_combination g = none →
      avg_matching_set acts user_id g ≠ [] →
      update_goal_state acts geo now user_id g =
        some { g with
                current := ((avg_matching_set acts user_id g).filterMap
                    (·.distance)).sum / (avg_matching_set acts user_id g).length,
                current_updated := some now }) ∧
    update_goal_state avgActsFolded [] (mkTs 2025 2 1) 1 avgGoalFolded =
      some { avgGoalFolded with
              current := 30, current_updated := some (mkTs 2025 2 1) } := by
  constructor
  · intro acts geo now user_id g hagg htype hval hne
    have ht : g.type = .activity := by
      cases h : g.type with
      | activity => rfl
      | manual => exact absurd h htype
      | location =>
        rw [validate_type_aggregation_combination, h, hagg] at hval
        simp at hval
    exact update_avg_characterization acts geo now user_id ht hagg hne
  · rw [update_avg_characterization avgActsFolded [] (mkTs 2025 2 1) 1 rfl rfl
      (by decide)]
    have hm : avg_matching_set avgActsFolded 1 avgGoalFolded = avgActsFolded := by
      decide
    rw [hm]
    have hd : avgActsFolded.filterMap (·.distance) = [10, 20, 60] := by decide
    rw [hd]
    norm_num [avgActsFolded, List.sum_cons, Goal.mk.injEq]

/-- Witness for C2 at the 10/20-folded, add-60 input. -/
theorem avg_distance_rescans_witness :
    update_goal_state avgActsFolded [] (mkTs 2025 2 1) 1 avgGoalFolded =
      some { avgGoalFolded with
              current := ((avg_matching_set avgActsFolded 1 avgGoalFolded).filterMap
                  (·.distance)).sum /
                (avg_matching_set avgActsFolded 1 avgGoalFolded).length,
              current_updated := some (mkTs 2025 2 1) } :=
  avg_distance_rescans.1 avgActsFolded [] (mkTs 2025 2 1) 1 avgGoalFolded rfl
    (by decide) rfl (by decide)

/-! ### C7: calculator registry failure isolation -/

/-- Folding with a one-element append is a map. -/
theorem foldl_append_singleton {α β : Type} (f : α → β) :
    ∀ (l : List α) (init : List β),
      l.foldl (fun res x => res ++ [f x]) init = init ++ l.map f := by
  intro l
  induction l with
  | nil => intro init; simp
  | cons a t ih =>
    intro init
    simp only [List.foldl_cons, List.map_cons]
    rw [ih (init ++ [f a])]
    simp

/-- `run_all` is the pointwise image of the registered calculators. -/
theorem run_all_eq_map (calculators : List (Nat × CalculatorFunc))
    (activity_id user_id : Nat) :
    run_all calculators activity_id user_id =
      calculators.map
        (fun mc => (mc.1, catch_calculator (mc.2 activity_id user_id))) := by
  have h := foldl_append_singleton
    (fun mc : Nat × CalculatorFunc =>
      (mc.1, catch_calculator (mc.2 activity_id user_id)))
    calculators []
  simpa [run_all] using h

/-- C7: `run_all` returns an entry for every registered metric, and the
entry of each registered calculator is exactly its own outcome — `None`
if it raised, its returned value otherwise — independent of every other
calculator: one failing calculator never aborts the rest. -/
theorem run_all_isolation :
    (∀ (calculators : List (Nat × CalculatorFunc)) (activity_id user_id : Nat),
      (run_all calculators activity_id user_id).map Prod.fst =
        calculators.map Prod.fst) ∧
    (∀ (calculators : List (Nat × CalculatorFunc)) (activity_id user_id : Nat)
        (m : Nat) (f : CalculatorFunc),
      (calculators.map Prod.fst).Nodup →
      (m, f) ∈ calculators →
      (run_all calculators activity_id user_id).lookup m =
        some (catch_calculator (f activity_id user_id))) := by
  constructor
  · intro calculators activity_id user_id
    rw [run_all_eq_map]
    simp
  · intro calculators activity_id user_id m f hnodup hmem
    rw [run_all_eq_map]
    induction calculators with
    | nil => cases hmem
    | cons c t ih =>
      simp only [List.map_cons, List.lookup_cons]
      rcases List.mem_cons.mp hmem with heq | htail
      · subst heq
        simp [catch_calculator]
      · have hm : m ∈ t.map Prod.fst :=
          List.mem_map.mpr ⟨(m, f), htail, rfl⟩
        have hcn : c.1 ∉ t.map Prod.fst ∧ (t.map Prod.fst).Nodup := by
          rw [List.map_cons] at hnodup
          exact List.nodup_cons.mp hnodup
        have hne : (m == c.1) = false := by
          simp only [beq_eq_false_iff_ne, ne_eq]
          intro hcontra
          exact hcn.1 (hcontra ▸ hm)
        simp only [hne]
        exact ih hcn.2 htail

/-- A calculator that returns a result of value 5. -/
def calcReturns : CalculatorFunc := fun _ _ => .ok (some { value := 5 })

/-- A calculator that raises. -/
def calcRaises : CalculatorFunc := fun _ _ => .error ()

/-- Witness for C7: with one healthy and one raising calculator
registered, `run_all` still returns both entries — the raising metric
mapped to `None`, the healthy one to its value. -/
theorem run_all_isolation_witness :
    (run_all [(1, calcReturns), (2, calcRaises)] 3 4).lookup 2 = some none ∧
    (run_all [(1, calcReturns), (2, calcRaises)] 3 4).lookup 1 =
      some (some { value := 5 }) ∧
    (run_all [(1, calcReturns), (2, calcRaises)] 3 4).map Prod.fst = [1, 2] :=
  ⟨run_all_isolation.2 [(1, calcReturns), (2, calcRaises)] 3 4 2 calcRaises
      (by decide) (by simp),
   run_all_isolation.2 [(1, calcReturns), (2, calcRaises)] 3 4 1 calcReturns
      (by decide) (by simp),
   run_all_isolation.1 [(1, calcReturns), (2, calcRaises)] 3 4⟩

/-! ### C10: equipment constraint is an exact superset match -/

/-- Counting lemma for the equipment HAVING clause: with duplicate-free
link rows and constraint ids, the count of link rows whose equipment id
is among the constraint ids equals the number of constraint ids iff the
activity is linked to every constraint id. -/
theorem equipment_count_eq_iff {E S : List Nat} (hS : S.Nodup) (hE : E.Nodup) :
    ((E.filter (fun e => S.contains e)).length == S.length) = true ↔
      ∀ e ∈ S, e ∈ E := by
  rw [beq_iff_eq]
  have hcongr : E.filter (fun e => S.contains e) =
      E.filter (fun e => decide (e ∈ S)) := by
    apply List.filter_congr
    intro x _
    simp [List.elem_iff]
  rw [hcongr]
  have hnodupf : (E.filter (fun e => decide (e ∈ S))).Nodup := hE.filter _
  constructor
  · intro hlen e he
    by_contra habs
    have hsub : (E.filter (fun e => decide (e ∈ S))).toFinset ⊆ S.toFinset := by
      intro x hx
      rw [List.mem_toFinset] at hx ⊢
      have := List.of_mem_filter hx
      simpa using this
    have hssub : (E.filter (fun e => decide (e ∈ S))).toFinset ⊂ S.toFinset := by
      refine ⟨hsub, ?_⟩
      intro hback
      have hmem : e ∈ (E.filter (fun e => decide (e ∈ S))).toFinset :=
        hback (List.mem_toFinset.mpr he)
      rw [List.mem_toFinset] at hmem
      exact habs (List.mem_of_mem_filter hmem)
    have hlt := Finset.card_lt_card hssub
    rw [List.toFinset_card_of_nodup hnodupf, List.toFinset_card_of_nodup hS] at hlt
    omega
  · intro hsub
    have h1 : (E.filter (fun e => decide (e ∈ S))).toFinset = S.toFinset := by
      apply Finset.Subset.antisymm
      · intro x hx
        rw [List.mem_toFinset] at hx ⊢
        have := List.of_mem_filter hx
        simpa using this
      · intro x hx
        rw [List.mem_toFinset] at hx ⊢
        exact List.mem_filter.mpr ⟨hsub x hx, by simpa using hx⟩
    have := congrArg Finset.card h1
    rw [List.toFinset_card_of_nodup hnodupf, List.toFinset_card_of_nodup hS] at this
    exact this

/-- C10: with `equipment_ids = eids` set (a nonempty duplicate-free list,
as stored sets of ids are), an activity passes the statement iff it
passes the same statement without the equipment constraint and is linked
to every id in `eids` — a superset of links matches, a strict subset
does not.  Concretely: with constraint [1, 2], an activity linked to
1, 2 and 3 matches and one linked only to 1 does not. -/
theorem equipment_exact_match :
    (∀ (user_id : Nat) (c : GoalContraints) (year : Nat)
        (month week : Option Nat) (lu : Option Timestamp)
        (pids : Option (List Nat)) (fd : Bool) (a : Activity)
        (eids : List Nat),
      c.equipment_ids = some eids →
      eids ≠ [] →
      eids.Nodup →
      a.equipment.Nodup →
      (build_activity_stmt_matches user_id c year month week lu pids fd a = true ↔
        (build_activity_stmt_matches user_id { c with equipment_ids := none }
            year month week lu pids fd a = true ∧
          ∀ e ∈ eids, e ∈ a.equipment))) ∧
    build_activity_stmt_matches 1 { equipment_ids := some [1, 2] } 2025 none none
      none none false { mkAct 9 2025 3 1 12 with equipment := [1, 2, 3] } = true ∧
    build_activity_stmt_matches 1 { equipment_ids := some [1, 2] } 2025 none none
      none none false { mkAct 9 2025 3 1 12 with equipment := [1] } = false := by
  refine ⟨?_, by decide, by decide⟩
  intro user_id c year month week lu pids fd a eids hc hne hnd hand
  have hkey := equipment_count_eq_iff (E := a.equipment) (S := eids) hnd hand
  have hemp : eids.isEmpty = false := by
    cases eids with
    | nil => exact absurd rfl hne
    | cons x t => rfl
  unfold build_activity_stmt_matches
  rw [hc]
  simp only [hemp, Bool.and_eq_true, Bool.false_eq_true, if_false]
  tauto

/-- Witness for C10: constraint [1,2] against links [1,2,3]. -/
theorem equipment_exact_match_witness :
    build_activity_stmt_matches 1 { equipment_ids := some [1, 2] } 2025 none none
        none none false { mkAct 9 2025 3 1 12 with equipment := [1, 2, 3] }
      = true ↔
    (build_activity_stmt_matches 1
        { ({ equipment_ids := some [1, 2] } : GoalContraints) with
          equipment_ids := none } 2025
        none none none none false
        { mkAct 9 2025 3 1 12 with equipment := [1, 2, 3] } = true ∧
      ∀ e ∈ [1, 2], e ∈ ({ mkAct 9 2025 3 1 12 with
        equipment := [1, 2, 3] } : Activity).equipment) :=
  equipment_exact_match.1 1 { equipment_ids := some [1, 2] } 2025 none none
    none none false { mkAct 9 2025 3 1 12 with equipment := [1, 2, 3] } [1, 2]
    rfl (by decide) (by decide) (by decide)

/-! ### C5: the leaderboard never stores a calculator's track id -/

/-- Every element of `assignRanks i l` is an element of `l` with only its
rank replaced. -/
theorem mem_assignRanks {x : Highlight} :
    ∀ {i : Int} {l : List Highlight}, x ∈ assignRanks i l →
      ∃ h ∈ l, ∃ j : Int, x = { h with rank := j } := by
  intro i l
  induction l generalizing i with
  | nil => intro hx; cases hx
  | cons h t ih =>
    intro hx
    rcases List.mem_cons.mp hx with heq | htail
    · exact ⟨h, List.mem_cons_self h t, i, heq⟩
    · rcases ih htail with ⟨b, hb, j, rfl⟩
      exact ⟨b, List.mem_cons_of_mem h hb, j, rfl⟩

/-- Elements of the truncated sort come from the sorted list. -/
theorem mem_of_mem_take_insertionSort {x : Highlight} {l : List Highlight}
    {n : Nat} (hx : x ∈ (List.insertionSort hlGe l).take n) : x ∈ l :=
  (List.perm_insertionSort hlGe l).mem_iff.mp
    ((List.take_sublist n (List.insertionSort hlGe l)).subset hx)

/-- One scope pass preserves "every stored row of the candidate activity
has no track id": the fresh candidate is built without `track_id`, and
re-inserted rows keep the stored value. -/
theorem update_scope_track_id (S : List Highlight) (user_id : Nat)
    (act : Activity) (metric : Nat) (value : ℚ) (n : Nat)
    (scope : HighlightTimeScope)
    (hS : ∀ r ∈ S, r.activity_id = act.id → r.track_id = none) :
    ∀ r ∈ update_highlights_scope S user_id act metric value n scope,
      r.activity_id = act.id → r.track_id = none := by
  intro r hr hid
  unfold update_highlights_scope at hr
  split at hr
  · rcases List.mem_append.mp hr with hl | hassign
    · exact hS r (List.mem_of_mem_filter hl) hid
    · rcases mem_assignRanks hassign with ⟨h, hmem, j, rfl⟩
      unfold scope_tops at hmem
      rcases List.mem_append.mp (mem_of_mem_take_insertionSort hmem) with
        hcur | hcand
      · exact hS h (List.mem_of_mem_filter hcur) hid
      · rw [List.mem_singleton.mp hcand]
        rfl
  · exact hS r hr hid

/-- C5 (failing behaviour): `update_top_n_highlights` has no `track_id`
parameter — the candidate row is constructed with `track_id = None` —
so from any store whose rows for the activity carry no track id, every
row stored for that activity after the update still carries none,
whatever `track_id` the calculator result held; concretely, processing a
fresh activity stores rows with `track_id = none` for both scopes. -/
theorem track_id_never_stored :
    (∀ (S : List Highlight) (user_id : Nat) (act : Activity) (metric : Nat)
        (value : ℚ) (n : Nat),
      (∀ r ∈ S, r.activity_id = act.id → r.track_id = none) →
      ∀ r ∈ update_top_n_highlights S user_id act metric value n,
        r.activity_id = act.id → r.track_id = none) ∧
    (update_top_n_highlights [] 1 (mkAct 7 2024 1 1 10) 5 10 3).map
      (fun r => (r.activity_id, r.track_id)) = [(7, none), (7, none)] := by
  constructor
  · intro S user_id act metric value n hS
    exact update_scope_track_id _ user_id act metric value n .lifetime
      (update_scope_track_id S user_id act metric value n .yearly hS)
  · decide

/-- Witness for C5 from the empty store. -/
theorem track_id_never_stored_witness :
    ∀ r ∈ update_top_n_highlights [] 1 (mkAct 7 2024 1 1 10) 5 10 3,
      r.activity_id = (mkAct 7 2024 1 1 10).id → r.track_id = none :=
  track_id_never_stored.1 [] 1 (mkAct 7 2024 1 1 10) 5 10 3
    (by intro r hr; cases hr)

/-! ### C4: update is not an idempotent insertion -/

/-- C4 (counterexample): re-applying `update_top_n_highlights` with
identical arguments is not idempotent — after inserting activity 7 once
from the empty store and then re-applying the same call, the store
changes again, and the LIFETIME key now holds two rows for activity 7. -/
theorem update_top_n_not_idempotent :
    update_top_n_highlights
        (update_top_n_highlights [] 1 (mkAct 7 2024 1 1 10) 5 10 3)
        1 (mkAct 7 2024 1 1 10) 5 10 3 ≠
      update_top_n_highlights [] 1 (mkAct 7 2024 1 1 10) 5 10 3 ∧
    ((update_top_n_highlights
        (update_top_n_highlights [] 1 (mkAct 7 2024 1 1 10) 5 10 3)
        1 (mkAct 7 2024 1 1 10) 5 10 3).filter
      (fun h => hlKey h == (1, 5, HighlightTimeScope.lifetime, none, 1))).map
      (fun h => h.activity_id) = [7, 7] := by
  constructor
  · decide
  · decide

/-- The no-write test of one scope pass: the candidate activity does not
survive the sorted top-`n` cut for the scope's key. -/
def cut_missed (state : List Highlight) (user_id : Nat) (act : Activity)
    (metric : Nat) (value : ℚ) (n : Nat) (scope : HighlightTimeScope) : Bool :=
  !(scope_tops state user_id act metric value n scope).any
    (fun c => c.activity_id == act.id)

/-- When the candidate misses the cut, the scope pass leaves the store
untouched. -/
theorem update_scope_skip {S : List Highlight} {user_id : Nat}
    {act : Activity} {metric : Nat} {value : ℚ} {n : Nat}
    {scope : HighlightTimeScope}
    (h : cut_missed S user_id act metric value n scope = true) :
    update_highlights_scope S user_id act metric value n scope = S := by
  unfold cut_missed at h
  simp only [Bool.not_eq_true'] at h
  unfold update_highlights_scope
  simp only [h, Bool.false_eq_true, if_false]

/-- C4 (amended): applying `update_top_n_highlights` twice with identical
arguments equals applying it once whenever the re-applied candidate does
not enter the sorted top-N of either scope of the once-updated store
(the no-write case); when it does enter, the second call inserts a
duplicate row for the activity (see the counterexample). -/
theorem update_top_n_idempotent_amended (S : List Highlight) (user_id : Nat)
    (act : Activity) (metric : Nat) (value : ℚ) (n : Nat)
    (hy : cut_missed (update_top_n_highlights S user_id act metric value n)
        user_id act metric value n .yearly = true)
    (hl : cut_missed (update_top_n_highlights S user_id act metric value n)
        user_id act metric value n .lifetime = true) :
    update_top_n_highlights (update_top_n_highlights S user_id act metric value n)
        user_id act metric value n =
      update_top_n_highlights S user_id act metric value n := by
  have h1 := update_scope_skip hy
  have h2 := update_scope_skip hl
  calc update_top_n_highlights (update_top_n_highlights S user_id act metric value n)
        user_id act metric value n
      = update_highlights_scope
          (update_highlights_scope
            (update_top_n_highlights S user_id act metric value n)
            user_id act metric value n .yearly)
          user_id act metric value n .lifetime := rfl
    _ = update_highlights_scope
          (update_top_n_highlights S user_id act metric value n)
          user_id act metric value n .lifetime := by rw [h1]
    _ = update_top_n_highlights S user_id act metric value n := h2

/-- A stored leaderboard row of user 1, metric 5, type 1. -/
def mkHl (aid : Nat) (scope : HighlightTimeScope) (year : Option Nat)
    (value : ℚ) (rank : Int) : Highlight :=
  { user_id := 1, activity_id := aid, type_id := 1, metric := 5,
    scope := scope, year := year, value := value, track_id := none,
    rank := rank }

/-- A store whose YEARLY-2024 and LIFETIME boards are full with values
100, 90, 80. -/
def fullBoard : List Highlight :=
  [mkHl 11 .yearly (some 2024) 100 1, mkHl 12 .yearly (some 2024) 90 2,
   mkHl 13 .yearly (some 2024) 80 3,
   mkHl 11 .lifetime none 100 1, mkHl 12 .lifetime none 90 2,
   mkHl 13 .lifetime none 80 3]

/-- Witness for the amended C4: a low candidate against full boards. -/
theorem update_top_n_idempotent_amended_witness :
    update_top_n_highlights
        (update_top_n_highlights fullBoard 1 (mkAct 7 2024 1 1 10) 5 10 3)
        1 (mkAct 7 2024 1 1 10) 5 10 3 =
      update_top_n_highlights fullBoard 1 (mkAct 7 2024 1 1 10) 5 10 3 :=
  update_top_n_idempotent_amended fullBoard 1 (mkAct 7 2024 1 1 10) 5 10 3
    (by decide) (by decide)

/-! ### C1: recompute twice in succession -/

/-- A statement with a cursor only returns activities created strictly
after the cursor. -/
theorem matches_cursor {user_id : Nat} {c : GoalContraints} {year : Nat}
    {month week : Option Nat} {t : Timestamp} {pids : Option (List Nat)}
    {fd : Bool} {a : Activity}
    (h : build_activity_stmt_matches user_id c year month week (some t) pids fd a
          = true) :
    tsLt t a.created_at = true := by
  unfold build_activity_stmt_matches at h
  simp only [Bool.and_eq_true] at h
  exact h.1.1.2

/-- With the cursor at `now` and every stored activity created at or
before `now`, the statement returns nothing. -/
theorem filter_cursor_nil {acts : List Activity} {now : Timestamp}
    (hall : ∀ a ∈ acts, tsLt now a.created_at = false)
    (user_id : Nat) (c : GoalContraints) (year : Nat) (month week : Option Nat)
    (pids : Option (List Nat)) (fd : Bool) :
    acts.filter
      (build_activity_stmt_matches user_id c year month week (some now) pids fd)
      = [] := by
  apply List.filter_eq_nil_iff.mpr
  intro a ha h
  have h1 := matches_cursor h
  have h2 := hall a ha
  exact absurd (h1.symm.trans h2) (by decide)

/-- Recompute is the identity on a LOCATION goal whose statement returns
nothing. -/
theorem update_location_empty (acts : List Activity) (geo : List Nat)
    (now : Timestamp) (user_id : Nat) {g : Goal} {lid : Nat}
    (ht : g.type = .location) (hloc : g.constraints.location_id = some lid)
    (hemp : location_stmt_filter acts geo user_id g = []) :
    update_goal_state acts geo now user_id g = some g := by
  rw [update_goal_state_loc acts geo now user_id ht]
  rw [update_goal_location, hloc]
  dsimp only
  rw [hemp]
  rfl

/-- Recompute is the identity on an ACTIVITY goal whose statement returns
nothing. -/
theorem update_activity_empty (acts : List Activity) (geo : List Nat)
    (now : Timestamp) (user_id : Nat) {g : Goal}
    (ht : g.type = .activity)
    (hemp : activity_stmt_filter acts user_id g = []) :
    update_goal_state acts geo now user_id g = some g := by
  rw [update_goal_state_act acts geo now user_id ht]
  rw [update_goal_activity]
  dsimp only
  rw [hemp]
  rfl

/-- Recompute is the identity on a LOCATION goal whose cursor already sits
at or after every stored activity's creation instant. -/
theorem update_location_noop (acts : List Activity) (geo : List Nat)
    (now2 : Timestamp) (user_id : Nat) {g : Goal} {now : Timestamp} {lid : Nat}
    (ht : g.type = .location) (hloc : g.constraints.location_id = some lid)
    (hcu : g.current_updated = some now)
    (hall : ∀ a ∈ acts, tsLt now a.created_at = false) :
    update_goal_state acts geo now2 user_id g = some g := by
  apply update_location_empty acts geo now2 user_id ht hloc
  unfold location_stmt_filter
  rw [hcu]
  exact filter_cursor_nil hall user_id g.constraints g.year g.month g.week
    (some geo) false

/-- Recompute is the identity on a non-AVG ACTIVITY goal whose cursor
already sits at or after every stored activity's creation instant. -/
theorem update_activity_nonavg_noop (acts : List Activity) (geo : List Nat)
    (now2 : Timestamp) (user_id : Nat) {g : Goal} {now : Timestamp}
    (ht : g.type = .activity) (hagg : g.aggregation ≠ .avg_distance)
    (hcu : g.current_updated = some now)
    (hall : ∀ a ∈ acts, tsLt now a.created_at = false) :
    update_goal_state acts geo now2 user_id g = some g := by
  apply update_activity_empty acts geo now2 user_id ht
  unfold activity_stmt_filter
  have hbne : (g.aggregation != .avg_distance) = true := bne_iff_ne.mpr hagg
  rw [hbne]
  simp only [if_true]
  rw [hcu]
  exact filter_cursor_nil hall user_id g.constraints g.year g.month g.week
    none (distance_aggregations.contains g.aggregation)

/-- A LOCATION recompute that saw candidates only mutates `current` and
sets the cursor to `now`. -/
theorem update_location_result {acts : List Activity} {geo : List Nat}
    {now : Timestamp} {user_id : Nat} {g g1 : Goal} {lid : Nat}
    (ht : g.type = .location) (hloc : g.constraints.location_id = some lid)
    (h : update_goal_state acts geo now user_id g = some g1)
    (hne : location_stmt_filter acts geo user_id g ≠ []) :
    ∃ c, g1 = { g with current := c, current_updated := some now } := by
  rw [update_goal_state_loc acts geo now user_id ht] at h
  rw [update_goal_location, hloc] at h
  dsimp only at h
  have hlen0 : ((location_stmt_filter acts geo user_id g).length == 0) = false := by
    simp only [beq_eq_false_iff_ne, ne_eq]
    intro h0
    exact hne (List.length_eq_zero.mp h0)
  rw [hlen0] at h
  simp only [Bool.false_eq_true, if_false] at h
  split at h
  · exact ⟨_, (Option.some.inj h).symm⟩
  · cases h

/-- A non-AVG ACTIVITY recompute that saw candidates only mutates
`current` and sets the cursor to `now`. -/
theorem update_activity_nonavg_result {acts : List Activity} {geo : List Nat}
    {now : Timestamp} {user_id : Nat} {g g1 : Goal}
    (ht : g.type = .activity)
    (h : update_goal_state acts geo now user_id g = some g1)
    (hne : activity_stmt_filter acts user_id g ≠ []) :
    ∃ c, g1 = { g with current := c, current_updated := some now } := by
  rw [update_goal_state_act acts geo now user_id ht] at h
  rw [update_goal_activity] at h
  dsimp only at h
  have hlen0 : ((activity_stmt_filter acts user_id g).length == 0) = false := by
    simp only [beq_eq_false_iff_ne, ne_eq]
    intro h0
    exact hne (List.length_eq_zero.mp h0)
  rw [hlen0] at h
  simp only [Bool.false_eq_true, if_false] at h
  split at h
  · exact ⟨_, (Option.some.inj h).symm⟩
  · exact ⟨_, (Option.some.inj h).symm⟩
  · split at h
    · split at h
      · exact ⟨_, (Option.some.inj h).symm⟩
      · exact ⟨_, (Option.some.inj h).symm⟩
      · split at h
        · exact ⟨_, (Option.some.inj h).symm⟩
        · cases h
    · cases h

/-- `update_location_noop` specialized to a goal just re-stamped by a
first recompute. -/
theorem update_location_noop_upd (acts : List Activity) (geo : List Nat)
    (now2 : Timestamp) (user_id : Nat) (g : Goal) (c : ℚ) (now : Timestamp)
    {lid : Nat}
    (ht : g.type = .location) (hloc : g.constraints.location_id = some lid)
    (hall : ∀ a ∈ acts, tsLt now a.created_at = false) :
    update_goal_state acts geo now2 user_id
        { g with current := c, current_updated := some now } =
      some { g with current := c, current_updated := some now } :=
  @update_location_noop acts geo now2 user_id
    { g with current := c, current_updated := some now } now lid ht hloc rfl hall

/-- `update_activity_nonavg_noop` specialized to a goal just re-stamped by
a first recompute. -/
theorem update_activity_nonavg_noop_upd (acts : List Activity) (geo : List Nat)
    (now2 : Timestamp) (user_id : Nat) (g : Goal) (c : ℚ) (now : Timestamp)
    (ht : g.type = .activity) (hagg : g.aggregation ≠ .avg_distance)
    (hall : ∀ a ∈ acts, tsLt now a.created_at = false) :
    update_goal_state acts geo now2 user_id
        { g with current := c, current_updated := some now } =
      some { g with current := c, current_updated := some now } :=
  @update_activity_nonavg_noop acts geo now2 user_id
    { g with current := c, current_updated := some now } now ht hagg rfl hall

/-- `update_avg_characterization` specialized to a goal just re-stamped by
a first recompute: the same average is recomputed and only the cursor
stamp moves. -/
theorem update_avg_characterization_upd (acts : List Activity) (geo : List Nat)
    (now2 : Timestamp) (user_id : Nat) (g : Goal) (c : ℚ) (now : Timestamp)
    (ht : g.type = .activity) (hagg : g.aggregation = .avg_distance)
    (hne : avg_matching_set acts user_id g ≠ []) :
    update_goal_state acts geo now2 user_id
        { g with current := c, current_updated := some now } =
      some { g with
              current := ((avg_matching_set acts user_id g).filterMap
                  (·.distance)).sum / (avg_matching_set acts user_id g).length,
              current_updated := some now2 } :=
  @update_avg_characterization acts geo now2 user_id
    { g with current := c, current_updated := some now } ht hagg hne

/-- A fresh AVG_DISTANCE goal for 2025 with no cursor. -/
def avgGoalFresh : Goal :=
  { target := 100, year := 2025, type := .activity,
    aggregation := .avg_distance }

/-- C1 (counterexample): an AVG_DISTANCE goal recomputed twice in
succession with no new activities between the calls keeps its `current`
but has its `current_updated` cursor advanced to the second call's
clock — the state is not unchanged. -/
theorem recompute_twice_counterexample :
    ∃ g1 g2 : Goal,
      update_goal_state [mkAct 1 2025 1 2 10] [] (mkTs 2025 2 1) 1 avgGoalFresh
        = some g1 ∧
      update_goal_state [mkAct 1 2025 1 2 10] [] (mkTs 2025 2 2) 1 g1
        = some g2 ∧
      (∀ a ∈ [mkAct 1 2025 1 2 10], tsLt (mkTs 2025 2 1) a.created_at = false) ∧
      g2.current = g1.current ∧
      g2.current_updated ≠ g1.current_updated := by
  refine ⟨_, _, rfl, rfl, by decide, rfl, by decide⟩

/-- C1 (amended): recomputing twice in succession with no new activities
(every stored activity created at or before the first call's clock, and
both calls succeeding) leaves `current` unchanged after the second call
for every goal type and aggregation; the whole goal — `current_updated`
included — is unchanged for every aggregation other than AVG_DISTANCE
(for AVG_DISTANCE with a nonempty matching set the second call re-stamps
`current_updated` with its own clock, as the counterexample shows). -/
theorem recompute_twice_amended :
    ∀ (acts : List Activity) (geo_candidates : List Nat)
      (now1 now2 : Timestamp) (user_id : Nat) (g g1 g2 : Goal),
      (∀ a ∈ acts, tsLt now1 a.created_at = false) →
      update_goal_state acts geo_candidates now1 user_id g = some g1 →
      update_goal_state acts geo_candidates now2 user_id g1 = some g2 →
      g2.current = g1.current ∧
      (g.aggregation ≠ .avg_distance → g2 = g1) := by
  intro acts geo now1 now2 user_id g g1 g2 hall h1 h2
  cases ht : g.type with
  | manual =>
    rw [update_goal_state_manual acts geo now1 user_id ht] at h1
    obtain rfl : g = g1 := Option.some.inj h1
    rw [update_goal_state_manual acts geo now2 user_id ht] at h2
    obtain rfl : g = g2 := Option.some.inj h2
    exact ⟨rfl, fun _ => rfl⟩
  | location =>
    cases hloc : g.constraints.location_id with
    | none =>
      rw [update_goal_state_loc acts geo now1 user_id ht] at h1
      rw [update_goal_location, hloc] at h1
      cases h1
    | some lid =>
      by_cases hemp : location_stmt_filter acts geo user_id g = []
      · rw [update_location_empty acts geo now1 user_id ht hloc hemp] at h1
        obtain rfl : g = g1 := Option.some.inj h1
        rw [update_location_empty acts geo now2 user_id ht hloc hemp] at h2
        obtain rfl : g = g2 := Option.some.inj h2
        exact ⟨rfl, fun _ => rfl⟩
      · obtain ⟨c, rfl⟩ := update_location_result ht hloc h1 hemp
        obtain rfl := Option.some.inj
          ((update_location_noop_upd acts geo now2 user_id g c now1 ht hloc
            hall).symm.trans h2)
        exact ⟨rfl, fun _ => rfl⟩
  | activity =>
    by_cases hagg : g.aggregation = .avg_distance
    · by_cases hemp : avg_matching_set acts user_id g = []
      · have hfe : activity_stmt_filter acts user_id g = [] := by
          rw [activity_filter_avg acts user_id hagg]
          exact hemp
        rw [update_activity_empty acts geo now1 user_id ht hfe] at h1
        obtain rfl : g = g1 := Option.some.inj h1
        rw [update_activity_empty acts geo now2 user_id ht hfe] at h2
        obtain rfl : g = g2 := Option.some.inj h2
        exact ⟨rfl, fun _ => rfl⟩
      · rw [update_avg_characterization acts geo now1 user_id ht hagg hemp] at h1
        obtain rfl := Option.some.inj h1
        obtain rfl := Option.some.inj
          ((update_avg_characterization_upd acts geo now2 user_id g
            (((avg_matching_set acts user_id g).filterMap (·.distance)).sum /
              (avg_matching_set acts user_id g).length) now1 ht hagg
            hemp).symm.trans h2)
        exact ⟨rfl, fun hne => absurd hagg hne⟩
    · by_cases hemp : activity_stmt_filter acts user_id g = []
      · rw [update_activity_empty acts geo now1 user_id ht hemp] at h1
        obtain rfl : g = g1 := Option.some.inj h1
        rw [update_activity_empty acts geo now2 user_id ht hemp] at h2
        obtain rfl : g = g2 := Option.some.inj h2
        exact ⟨rfl, fun _ => rfl⟩
      · obtain ⟨c, rfl⟩ := update_activity_nonavg_result ht h1 hemp
        obtain rfl := Option.some.inj
          ((update_activity_nonavg_noop_upd acts geo now2 user_id g c now1 ht
            hagg hall).symm.trans h2)
        exact ⟨rfl, fun _ => rfl⟩

/-- A COUNT goal with no matching activities. -/
def countGoal2025 : Goal :=
  { target := 10, year := 2025, type := .activity, aggregation := .count }

/-- Witness for the amended C1 at an empty store. -/
theorem recompute_twice_amended_witness :
    countGoal2025.current = countGoal2025.current ∧
    (countGoal2025.aggregation ≠ .avg_distance →
      countGoal2025 = countGoal2025) :=
  recompute_twice_amended [] [] (mkTs 2025 2 1) (mkTs 2025 2 2) 1
    countGoal2025 countGoal2025 countGoal2025 (by simp) rfl rfl

/-! ### C3: the leaderboard key invariant -/

/-- Changing only the rank keeps the sort order. -/
theorem hlGe_set_rank {a b : Highlight} {i j : Int} (h : hlGe a b) :
    hlGe { a with rank := i } { b with rank := j } := h

/-- Rank re-assignment keeps the length. -/
theorem assignRanks_length : ∀ (i : Int) (l : List Highlight),
    (assignRanks i l).length = l.length := by
  intro i l
  induction l generalizing i with
  | nil => rfl
  | cons h t ih => simp [assignRanks, ih]

/-- "The ranks of the rows, in store order, are i, i+1, ..." -/
def ranks_contiguous (i : Int) : List Highlight → Bool
  | [] => true
  | h :: t => h.rank == i && ranks_contiguous (i + 1) t

/-- Rank re-assignment from `i` yields exactly the ranks i, i+1, ... -/
theorem ranks_contiguous_assignRanks : ∀ (i : Int) (l : List Highlight),
    ranks_contiguous i (assignRanks i l) = true := by
  intro i l
  induction l generalizing i with
  | nil => rfl
  | cons h t ih =>
    simp only [assignRanks, ranks_contiguous, Bool.and_eq_true, beq_iff_eq]
    exact ⟨trivial, ih (i + 1)⟩

/-- Rank re-assignment keeps the sortedness of the rows. -/
theorem pairwise_assignRanks : ∀ (i : Int) {l : List Highlight},
    l.Pairwise hlGe → (assignRanks i l).Pairwise hlGe := by
  intro i l
  induction l generalizing i with
  | nil => intro _; exact List.Pairwise.nil
  | cons h t ih =>
    intro hl
    rcases List.pairwise_cons.mp hl with ⟨hhead, htail⟩
    refine List.pairwise_cons.mpr ⟨?_, ih (i + 1) htail⟩
    intro b hb
    rcases mem_assignRanks hb with ⟨b0, hb0, j, rfl⟩
    exact hlGe_set_rank (hhead b0 hb0)

/-- `keyRows` distributes over append. -/
theorem keyRows_append (A B : List Highlight)
    (k : Nat × Nat × HighlightTimeScope × Option Nat × Nat) :
    keyRows (A ++ B) k = keyRows A k ++ keyRows B k := by
  simp [keyRows, List.filter_append]

/-- Filtering away a key then selecting it yields nothing. -/
theorem keyRows_filter_not_self (S : List Highlight)
    (key : Nat × Nat × HighlightTimeScope × Option Nat × Nat) :
    keyRows (S.filter (fun h => !(hlKey h == key))) key = [] := by
  apply List.filter_eq_nil_iff.mpr
  intro a ha hk
  have hne := (List.mem_filter.mp ha).2
  rw [Bool.not_eq_true'] at hne
  exact absurd (hne.symm.trans hk) (by decide)

/-- Removing the rows of predicate `p` does not change the rows of a
disjoint predicate `q`. -/
theorem filter_filter_not {α : Type} (p q : α → Bool) (l : List α)
    (hpq : ∀ a, q a = true → p a = false) :
    (l.filter (fun a => !(p a))).filter q = l.filter q := by
  induction l with
  | nil => rfl
  | cons a t ih =>
    cases hp : p a with
    | true =>
      have hq : q a = false := by
        cases hqa : q a with
        | false => rfl
        | true => exact absurd (hpq a hqa) (by simp [hp])
      simp [List.filter_cons, hp, hq, ih]
    | false =>
      cases hqa : q a with
      | false => simp [List.filter_cons, hp, hqa, ih]
      | true => simp [List.filter_cons, hp, hqa, ih]

/-- Filtering away one key leaves every other key's rows untouched. -/
theorem keyRows_filter_not_ne (S : List Highlight)
    {key k : Nat × Nat × HighlightTimeScope × Option Nat × Nat} (hk : k ≠ key) :
    keyRows (S.filter (fun h => !(hlKey h == key))) k = keyRows S k := by
  unfold keyRows
  apply filter_filter_not
  intro a ha
  have : hlKey a = k := beq_iff_eq.mp ha
  simp only [beq_eq_false_iff_ne, ne_eq, this]
  exact fun hcontra => hk hcontra

/-- Every truncated-sort element belongs to the scope's key. -/
theorem hlKey_of_mem_scope_tops {S : List Highlight} {user_id : Nat}
    {act : Activity} {metric : Nat} {value : ℚ} {n : Nat}
    {scope : HighlightTimeScope} {x : Highlight}
    (hx : x ∈ scope_tops S user_id act metric value n scope) :
    hlKey x = scope_key user_id act metric scope := by
  unfold scope_tops at hx
  rcases List.mem_append.mp (mem_of_mem_take_insertionSort hx) with hcur | hcand
  · exact beq_iff_eq.mp (List.mem_filter.mp hcur).2
  · rw [List.mem_singleton.mp hcand]
    rfl

/-- The ranked fresh rows all belong to the scope's key, so selecting that
key returns all of them. -/
theorem keyRows_assignRanks_self {S : List Highlight} {user_id : Nat}
    {act : Activity} {metric : Nat} {value : ℚ} {n : Nat}
    {scope : HighlightTimeScope} :
    keyRows (assignRanks 1 (scope_tops S user_id act metric value n scope))
        (scope_key user_id act metric scope) =
      assignRanks 1 (scope_tops S user_id act metric value n scope) := by
  apply List.filter_eq_self.mpr
  intro x hx
  rcases mem_assignRanks hx with ⟨x0, hx0, j, rfl⟩
  have : hlKey x0 = scope_key user_id act metric scope :=
    hlKey_of_mem_scope_tops hx0
  exact beq_iff_eq.mpr this

/-- ... and selecting any other key returns none of them. -/
theorem keyRows_assignRanks_ne {S : List Highlight} {user_id : Nat}
    {act : Activity} {metric : Nat} {value : ℚ} {n : Nat}
    {scope : HighlightTimeScope}
    {k : Nat × Nat × HighlightTimeScope × Option Nat × Nat}
    (hk : k ≠ scope_key user_id act metric scope) :
    keyRows (assignRanks 1 (scope_tops S user_id act metric value n scope)) k
      = [] := by
  apply List.filter_eq_nil_iff.mpr
  intro x hx hcontra
  rcases mem_assignRanks hx with ⟨x0, hx0, j, rfl⟩
  have : hlKey x0 = scope_key user_id act metric scope :=
    hlKey_of_mem_scope_tops hx0
  exact hk ((beq_iff_eq.mp hcontra).symm.trans this)

/-- The shape every key's stored rows must keep: at most `n` rows, ranks
exactly 1..count in store order, and descending (value, activity id)
order. -/
def goodRows (n : Nat) (rows : List Highlight) : Prop :=
  rows.length ≤ n ∧ ranks_contiguous 1 rows = true ∧ rows.Pairwise hlGe

/-- The leaderboard invariant: every key's rows are `goodRows`. -/
def lbInvariant (n : Nat) (state : List Highlight) : Prop :=
  ∀ k, goodRows n (keyRows state k)

/-- The ranked fresh rows of a scope pass are `goodRows`. -/
theorem goodRows_assignRanks_tops (S : List Highlight) (user_id : Nat)
    (act : Activity) (metric : Nat) (value : ℚ) (n : Nat)
    (scope : HighlightTimeScope) :
    goodRows n (assignRanks 1 (scope_tops S user_id act metric value n scope)) := by
  refine ⟨?_, ranks_contiguous_assignRanks 1 _, ?_⟩
  · rw [assignRanks_length]
    unfold scope_tops
    rw [List.length_take]
    exact Nat.min_le_left n _
  · apply pairwise_assignRanks
    unfold scope_tops
    exact List.Pairwise.sublist (List.take_sublist n _)
      (List.sorted_insertionSort hlGe _)

/-- One scope pass preserves the leaderboard invariant. -/
theorem update_scope_invariant (S : List Highlight) (user_id : Nat)
    (act : Activity) (metric : Nat) (value : ℚ) (n : Nat)
    (scope : HighlightTimeScope) (hinv : lbInvariant n S) :
    lbInvariant n (update_highlights_scope S user_id act metric value n scope) := by
  intro k
  unfold update_highlights_scope
  split
  · rw [keyRows_append]
    by_cases hk : k = scope_key user_id act metric scope
    · subst hk
      rw [keyRows_filter_not_self, keyRows_assignRanks_self, List.nil_append]
      exact goodRows_assignRanks_tops S user_id act metric value n scope
    · rw [keyRows_filter_not_ne S hk, keyRows_assignRanks_ne hk,
        List.append_nil]
      exact hinv k
  · exact hinv k

/-- C3: `update_top_n_highlights` preserves the per-key invariant — at
most N rows, ranks exactly 1..count in store order, rows descending by
(value, activity id) — for every key; and inserting distances
50, 200, 20, 100 with N=3 from the empty store leaves the LIFETIME
distance board holding exactly [200, 100, 50] at ranks 1..3 with the
20-distance activity absent. -/
theorem leaderboard_invariant :
    (∀ (S : List Highlight) (user_id : Nat) (act : Activity) (metric : Nat)
        (value : ℚ) (n : Nat),
      lbInvariant n S →
      lbInvariant n (update_top_n_highlights S user_id act metric value n)) ∧
    ((update_top_n_highlights
        (update_top_n_highlights
          (update_top_n_highlights
            (update_top_n_highlights [] 1 (mkAct 1 2024 1 1 50) 2 50 3)
            1 (mkAct 2 2024 1 2 200) 2 200 3)
          1 (mkAct 3 2024 1 3 20) 2 20 3)
        1 (mkAct 4 2024 1 4 100) 2 100 3).filter
      (fun h => hlKey h == (1, 2, HighlightTimeScope.lifetime, none, 1))).map
      (fun h => (h.activity_id, h.value, h.rank)) =
      [(2, 200, 1), (4, 100, 2), (1, 50, 3)] ∧
    (update_top_n_highlights
        (update_top_n_highlights
          (update_top_n_highlights
            (update_top_n_highlights [] 1 (mkAct 1 2024 1 1 50) 2 50 3)
            1 (mkAct 2 2024 1 2 200) 2 200 3)
          1 (mkAct 3 2024 1 3 20) 2 20 3)
        1 (mkAct 4 2024 1 4 100) 2 100 3).all
      (fun h => !(h.scope == HighlightTimeScope.lifetime
        && h.activity_id == 3)) = true := by
  refine ⟨?_, by decide, by decide⟩
  intro S user_id act metric value n hinv
  exact update_scope_invariant _ user_id act metric value n .lifetime
    (update_scope_invariant S user_id act metric value n .yearly hinv)

/-- Witness for C3 from the empty store. -/
theorem leaderboard_invariant_witness :
    lbInvariant 3 (update_top_n_highlights [] 1 (mkAct 1 2024 1 1 50) 2 50 3) :=
  leaderboard_invariant.1 [] 1 (mkAct 1 2024 1 1 50) 2 50 3
    (fun _k => ⟨Nat.zero_le 3, rfl, List.Pairwise.nil⟩)
